import Mathlib

/-!
Verification model of the 3D-Printer-Model-Multi-Search backend (server.js).

The embedding mirrors the `/api/search` Express handler and its helpers:
`getCachedSearch`, `cacheSearch`, the three scrapers (`searchThingiverse`,
`searchPrintables`, `searchMakerWorld`), the node-cache memory cache and the
SQLite persistent cache.  Each request is modelled as a pure function from the
server state, the request query and the settlement of the three adapter
promises to a handler result, an ordered trace of observable effects and the
next server state.  The synchronous prefix of the handler (validation and
cache checks, which run atomically in Node's single thread) is split from the
part after the `await Promise.allSettled` suspension point, so that the
interleaving of two concurrent requests can be stated faithfully.
-/

namespace Agg

/-- The three scraped platforms, in the fixed order the server uses. -/
inductive Src
  | thingiverse
  | printables
  | makerworld
deriving DecidableEq

/-- One search hit, shaped like the `formattedResults` objects each scraper
builds (`id`, `title`, `thumbnail`, `author`, `source`, `url`, `likes`,
`downloads`). -/
structure Listing where
  id : String
  title : String
  thumbnail : String
  author : String
  source : Src
  url : String
  likes : Nat
  downloads : Nat
deriving DecidableEq

/-- Per-platform result counts: the `sources` object of a response and the
parsed `sources` column of a `searches` row. -/
structure SourceCounts where
  thingiverse : Nat
  printables : Nat
  makerworld : Nat
deriving DecidableEq

/-- Look up the count for one platform. -/
def SourceCounts.get (c : SourceCounts) : Src → Nat
  | Src.thingiverse => c.thingiverse
  | Src.printables => c.printables
  | Src.makerworld => c.makerworld

/-- The external response envelope `\x7bquery, total, results, sources\x7d`
built by the handler. -/
structure Response where
  query : String
  total : Nat
  results : List Listing
  sources : SourceCounts
deriving DecidableEq

/-- A row of the `searches` table: the deserialized `results` and `sources`
columns (timestamps are not modelled; a present row is within retention). -/
structure DbRecord where
  results : List Listing
  sources : SourceCounts
deriving DecidableEq

/-- The node-cache memory cache, an association list keyed by
`search_` ++ query. -/
abbrev MemCache := List (String × Response)

/-- The SQLite cache, an association list keyed by the raw query text. -/
abbrev DbCache := List (String × DbRecord)

/-- The mutable state shared by all requests. -/
structure ServerState where
  memCache : MemCache
  dbCache : DbCache
deriving DecidableEq

/-- The settlement of one adapter promise, as observed through
`Promise.allSettled`. -/
inductive FetchOutcome
  | fulfilled (listings : List Listing)
  | rejected
deriving DecidableEq

/-- A fulfilled promise contributes its value; a rejected one is replaced by
the empty list (`status === 'fulfilled' ? value : []`). -/
def settle : FetchOutcome → List Listing
  | FetchOutcome.fulfilled l => l
  | FetchOutcome.rejected => []

/-- The adapter boundary: `searchThingiverse` and its peers wrap scraping in
`try/catch` and return the empty list on any internal error. -/
def adapterCatch : Except String (List Listing) → List Listing
  | Except.ok l => l
  | Except.error _ => []

/-- Observable effects of one request, in program order. -/
inductive Ev
  | dbRead (q : String)
  | memRead (k : String)
  | invoke (s : Src)
  | memWrite (k : String)
  | dbWrite (q : String)
deriving DecidableEq

/-- The memory-cache key for a query: `search_` ++ query, verbatim. -/
def memKey (q : String) : String := "search_" ++ q

/-- Insert-or-replace in an association list (node-cache `set` overwrites;
the SQL `INSERT ... ON CONFLICT(query) DO UPDATE` replaces). -/
def setEntry {β : Type} (k : String) (v : β) (m : List (String × β)) :
    List (String × β) :=
  (k, v) :: m.filter (fun p => p.1 != k)

/-- `results.filter(r => r.source === s)`. -/
def filterSource (s : Src) (rs : List Listing) : List Listing :=
  rs.filter (fun l => decide (l.source = s))

/-- Assemble the response envelope from the three per-platform lists, exactly
as the handler does: concatenate in the fixed platform order and record each
list's length in `sources`. -/
def mkResponse (q : String) (t p m : List Listing) : Response :=
  { query := q
    total := (t ++ p ++ m).length
    results := t ++ p ++ m
    sources := { thingiverse := t.length
                 printables := p.length
                 makerworld := m.length } }

/-- The envelope `getCachedSearch` returns for a row: stored `results` and
`sources` verbatim, `total` recomputed as the length of the stored results. -/
def dbEnvelope (q : String) (rec : DbRecord) : Response :=
  { query := q
    total := rec.results.length
    results := rec.results
    sources := rec.sources }

/-- `sources.thingiverse === 0 || sources.printables === 0 ||
sources.makerworld === 0`. -/
def needsRefresh (c : SourceCounts) : Bool :=
  c.thingiverse == 0 || c.printables == 0 || c.makerworld == 0

/-- What the synchronous part of the handler decided to fetch: one flag per
platform, plus the carried-over cached listings for the platforms it will not
re-fetch. -/
structure FetchPlan where
  fetchT : Bool
  fetchP : Bool
  fetchM : Bool
  carryT : List Listing
  carryP : List Listing
  carryM : List Listing
deriving DecidableEq

/-- Outcome of the synchronous cache-check prefix of the handler: either a
cache hit answered immediately, or a plan of fetches to await. -/
inductive Plan
  | respond (r : Response) (evs : List Ev)
  | doFetch (fp : FetchPlan) (evs : List Ev)
deriving DecidableEq

/-- The synchronous cache-check prefix of `/api/search` for a validated
query: the SQLite cache is read first; on a hit with some zero count a
refresh plan for exactly the zero-count platforms is made; on a hit with all
counts positive the stored row is returned; only on a SQLite miss is the
memory cache read; a memory hit is returned; otherwise all three platforms
are fetched. -/
def cacheCheck (st : ServerState) (query : String) : Plan :=
  match st.dbCache.lookup query with
  | some rec =>
    if needsRefresh rec.sources then
      Plan.doFetch
        { fetchT := rec.sources.thingiverse == 0
          fetchP := rec.sources.printables == 0
          fetchM := rec.sources.makerworld == 0
          carryT := filterSource Src.thingiverse rec.results
          carryP := filterSource Src.printables rec.results
          carryM := filterSource Src.makerworld rec.results }
        [Ev.dbRead query]
    else
      Plan.respond (dbEnvelope query rec) [Ev.dbRead query]
  | none =>
    match st.memCache.lookup (memKey query) with
    | some resp =>
      Plan.respond resp [Ev.dbRead query, Ev.memRead (memKey query)]
    | none =>
      Plan.doFetch
        { fetchT := true, fetchP := true, fetchM := true
          carryT := [], carryP := [], carryM := [] }
        [Ev.dbRead query, Ev.memRead (memKey query)]

/-- Await the planned fetches (`Promise.allSettled`): each platform either
gets its settled fetch or its carried-over cached listings, and the merged
envelope is assembled. -/
def execPlan (q : String) (fp : FetchPlan) (fetch : Src → FetchOutcome) :
    Response × List Ev :=
  ( mkResponse q
      (if fp.fetchT then settle (fetch Src.thingiverse) else fp.carryT)
      (if fp.fetchP then settle (fetch Src.printables) else fp.carryP)
      (if fp.fetchM then settle (fetch Src.makerworld) else fp.carryM)
  , (if fp.fetchT then [Ev.invoke Src.thingiverse] else []) ++
    (if fp.fetchP then [Ev.invoke Src.printables] else []) ++
    (if fp.fetchM then [Ev.invoke Src.makerworld] else []) )

/-- `cache.set(cacheKey, response)` followed by
`cacheSearch(query, allResults, response.sources)`. -/
def writeBack (st : ServerState) (q : String) (r : Response) : ServerState :=
  { memCache := setEntry (memKey q) r st.memCache
    dbCache := setEntry q { results := r.results, sources := r.sources }
                 st.dbCache }

/-- What the handler sends: a 4xx JSON error or a response envelope. -/
inductive HandlerResult
  | clientError (status : Nat)
  | ok (r : Response)
deriving DecidableEq

/-- Complete one request from its cache-check plan: a cache hit responds
without touching the state; a fetch plan is executed, both caches are
written, and the merged envelope is returned. -/
def finishReq (st : ServerState) (query : String) (plan : Plan)
    (fetch : Src → FetchOutcome) : (HandlerResult × List Ev) × ServerState :=
  match plan with
  | Plan.respond r evs => ((HandlerResult.ok r, evs), st)
  | Plan.doFetch fp evs =>
    ((HandlerResult.ok (execPlan query fp fetch).1,
      evs ++ (execPlan query fp fetch).2 ++
        [Ev.memWrite (memKey query), Ev.dbWrite query]),
      writeBack st query (execPlan query fp fetch).1)

/-- One whole `/api/search` request: a missing or empty `q` is rejected with
status 400 before any cache or fetch work; otherwise cache check, fetches and
write-back run in order against the given state. -/
def handleSearch (st : ServerState) (q : Option String)
    (fetch : Src → FetchOutcome) : HandlerResult × List Ev × ServerState :=
  match q with
  | none => (HandlerResult.clientError 400, [], st)
  | some query =>
    if query = "" then (HandlerResult.clientError 400, [], st)
    else
      ((finishReq st query (cacheCheck st query) fetch).1.1,
       (finishReq st query (cacheCheck st query) fetch).1.2,
       (finishReq st query (cacheCheck st query) fetch).2)

/-- Two concurrent requests for the same (validated) query: the second
arrives while the first is suspended at its `await Promise.allSettled`, so
both cache checks read the same initial state; the first request then
completes and writes back, and the second completes against the first's
resulting state. -/
def twoConcurrent (st : ServerState) (query : String)
    (f1 f2 : Src → FetchOutcome) :
    ((HandlerResult × List Ev) × (HandlerResult × List Ev)) × ServerState :=
  (( (finishReq st query (cacheCheck st query) f1).1
   , (finishReq (finishReq st query (cacheCheck st query) f1).2 query
        (cacheCheck st query) f2).1 )
  , (finishReq (finishReq st query (cacheCheck st query) f1).2 query
       (cacheCheck st query) f2).2 )

/-- The adapter invocations recorded in an effect trace. -/
def invoked (evs : List Ev) : List Src :=
  evs.filterMap (fun e => match e with | Ev.invoke s => some s | _ => none)

/-- The response envelope is internally consistent: `total` is the number of
listings in `results`, and each platform's entry in `sources` counts the
listings of that platform in `results`. -/
def envelopeOK (r : Response) : Prop :=
  r.total = r.results.length ∧
  ∀ s, r.sources.get s = (filterSource s r.results).length

/-- A stored row is internally consistent: each platform's stored count
matches the stored listings of that platform. -/
def recOK (rec : DbRecord) : Prop :=
  ∀ s, rec.sources.get s = (filterSource s rec.results).length

/-! ### Association-list lemmas -/

theorem lookup_setEntry_self {β : Type} (k : String) (v : β)
    (m : List (String × β)) : (setEntry k v m).lookup k = some v := by
  simp [setEntry, List.lookup]

theorem lookup_filter_ne {β : Type} (k k' : String) (m : List (String × β))
    (h : k' ≠ k) :
    (m.filter (fun p => p.1 != k)).lookup k' = m.lookup k' := by
  induction m with
  | nil => rfl
  | cons a m ih =>
    by_cases hak : a.1 = k
    · have hf : (a.1 != k) = false := by simp [hak]
      have hb : (k' == a.1) = false := by
        simp only [beq_eq_false_iff_ne]
        rw [hak]
        exact h
      simp [List.filter_cons, hf, ih, List.lookup, hb]
    · have hf : (a.1 != k) = true := by simp [hak]
      by_cases hka : k' = a.1
      · simp [List.filter_cons, hf, List.lookup, hka]
      · have hb : (k' == a.1) = false := by simp [hka]
        simp [List.filter_cons, hf, List.lookup, hb, ih]

theorem lookup_setEntry_ne {β : Type} (k k' : String) (v : β)
    (m : List (String × β)) (h : k' ≠ k) :
    (setEntry k v m).lookup k' = m.lookup k' := by
  have hb : (k' == k) = false := by simp [h]
  simp only [setEntry, List.lookup, hb]
  exact lookup_filter_ne k k' m h

/-! ### filterSource lemmas -/

theorem filterSource_append (s : Src) (xs ys : List Listing) :
    filterSource s (xs ++ ys) = filterSource s xs ++ filterSource s ys := by
  simp [filterSource, List.filter_append]

theorem filterSource_eq_self (s : Src) (xs : List Listing)
    (h : ∀ l ∈ xs, l.source = s) : filterSource s xs = xs := by
  rw [filterSource, List.filter_eq_self]
  intro a ha
  simp [h a ha]

theorem filterSource_eq_nil (s : Src) (xs : List Listing)
    (h : ∀ l ∈ xs, l.source ≠ s) : filterSource s xs = [] := by
  rw [filterSource, List.filter_eq_nil_iff]
  intro a ha
  simp [h a ha]

theorem source_of_mem_filterSource {s : Src} {xs : List Listing}
    {l : Listing} (h : l ∈ filterSource s xs) : l.source = s := by
  rw [filterSource, List.mem_filter] at h
  exact of_decide_eq_true h.2

/-- Filtering the merged list by platform recovers exactly that platform's
component, when each component is tagged with its own platform. -/
theorem filterSource_merge (t p m : List Listing)
    (ht : ∀ l ∈ t, l.source = Src.thingiverse)
    (hp : ∀ l ∈ p, l.source = Src.printables)
    (hm : ∀ l ∈ m, l.source = Src.makerworld) :
    ∀ s, filterSource s (t ++ p ++ m) =
      match s with
      | Src.thingiverse => t
      | Src.printables => p
      | Src.makerworld => m := by
  intro s
  rw [filterSource_append, filterSource_append]
  cases s with
  | thingiverse =>
    rw [filterSource_eq_self _ _ ht,
        filterSource_eq_nil _ _ (fun l hl => by simp [hp l hl]),
        filterSource_eq_nil _ _ (fun l hl => by simp [hm l hl])]
    simp
  | printables =>
    rw [filterSource_eq_nil _ _ (fun l hl => by simp [ht l hl]),
        filterSource_eq_self _ _ hp,
        filterSource_eq_nil _ _ (fun l hl => by simp [hm l hl])]
    simp
  | makerworld =>
    rw [filterSource_eq_nil _ _ (fun l hl => by simp [ht l hl]),
        filterSource_eq_nil _ _ (fun l hl => by simp [hp l hl]),
        filterSource_eq_self _ _ hm]
    simp

/-! ### Path lemmas for the handler -/

/-- The per-platform list a partial refresh ends up using: a fresh settled
fetch for a zero-count platform, the carried-over cached listings
otherwise. -/
def refreshList (rec : DbRecord) (fetch : Src → FetchOutcome) (s : Src) :
    List Listing :=
  if rec.sources.get s == 0 then settle (fetch s)
  else filterSource s rec.results

/-- Path: SQLite hit with every count positive. The stored row is returned
as-is; nothing is fetched; the state (both caches) is untouched. -/
theorem handleSearch_dbHit (st : ServerState) (query : String)
    (fetch : Src → FetchOutcome) (rec : DbRecord) (hq : query ≠ "")
    (hdb : st.dbCache.lookup query = some rec)
    (hnr : needsRefresh rec.sources = false) :
    handleSearch st (some query) fetch =
      (HandlerResult.ok (dbEnvelope query rec), [Ev.dbRead query], st) := by
  simp [handleSearch, hq, cacheCheck, hdb, hnr, finishReq]

/-- Path: SQLite hit with some zero count. Exactly the zero-count platforms
are fetched, positive-count platforms carry their cached listings, and the
merged envelope is written back to both caches. -/
theorem handleSearch_refresh (st : ServerState) (query : String)
    (fetch : Src → FetchOutcome) (rec : DbRecord) (hq : query ≠ "")
    (hdb : st.dbCache.lookup query = some rec)
    (hnr : needsRefresh rec.sources = true) :
    handleSearch st (some query) fetch =
      (HandlerResult.ok
        (mkResponse query (refreshList rec fetch Src.thingiverse)
          (refreshList rec fetch Src.printables)
          (refreshList rec fetch Src.makerworld)),
       [Ev.dbRead query] ++
         ((if rec.sources.thingiverse == 0
             then [Ev.invoke Src.thingiverse] else []) ++
          (if rec.sources.printables == 0
             then [Ev.invoke Src.printables] else []) ++
          (if rec.sources.makerworld == 0
             then [Ev.invoke Src.makerworld] else [])) ++
         [Ev.memWrite (memKey query), Ev.dbWrite query],
       writeBack st query
        (mkResponse query (refreshList rec fetch Src.thingiverse)
          (refreshList rec fetch Src.printables)
          (refreshList rec fetch Src.makerworld))) := by
  simp [handleSearch, hq, cacheCheck, hdb, hnr, finishReq, execPlan,
    refreshList, SourceCounts.get]

/-- Path: SQLite miss, memory hit. The memorized response is returned;
nothing is fetched; the state is untouched. -/
theorem handleSearch_memHit (st : ServerState) (query : String)
    (fetch : Src → FetchOutcome) (resp : Response) (hq : query ≠ "")
    (hdb : st.dbCache.lookup query = none)
    (hmem : st.memCache.lookup (memKey query) = some resp) :
    handleSearch st (some query) fetch =
      (HandlerResult.ok resp,
       [Ev.dbRead query, Ev.memRead (memKey query)], st) := by
  simp [handleSearch, hq, cacheCheck, hdb, hmem, finishReq]

/-- Path: both caches miss. All three platforms are fetched and the merged
envelope is written back to both caches. -/
theorem handleSearch_fullFetch (st : ServerState) (query : String)
    (fetch : Src → FetchOutcome) (hq : query ≠ "")
    (hdb : st.dbCache.lookup query = none)
    (hmem : st.memCache.lookup (memKey query) = none) :
    handleSearch st (some query) fetch =
      (HandlerResult.ok
        (mkResponse query (settle (fetch Src.thingiverse))
          (settle (fetch Src.printables)) (settle (fetch Src.makerworld))),
       [Ev.dbRead query, Ev.memRead (memKey query),
        Ev.invoke Src.thingiverse, Ev.invoke Src.printables,
        Ev.invoke Src.makerworld,
        Ev.memWrite (memKey query), Ev.dbWrite query],
       writeBack st query
        (mkResponse query (settle (fetch Src.thingiverse))
          (settle (fetch Src.printables))
          (settle (fetch Src.makerworld)))) := by
  simp [handleSearch, hq, cacheCheck, hdb, hmem, finishReq, execPlan]

/-- `memKey` is injective: memory-cache keys collide exactly when the raw
query texts coincide. -/
theorem memKey_inj {q1 q2 : String} (h : memKey q1 = memKey q2) : q1 = q2 := by
  have hd := congrArg String.data h
  rw [memKey, memKey, String.data_append, String.data_append] at hd
  exact String.ext (List.append_cancel_left hd)

/-- A merged response built from per-platform lists each tagged with its own
platform satisfies the envelope invariant. -/
theorem envelopeOK_mkResponse (q : String) (t p m : List Listing)
    (ht : ∀ l ∈ t, l.source = Src.thingiverse)
    (hp : ∀ l ∈ p, l.source = Src.printables)
    (hm : ∀ l ∈ m, l.source = Src.makerworld) :
    envelopeOK (mkResponse q t p m) := by
  refine ⟨rfl, fun s => ?_⟩
  have hmg := filterSource_merge t p m ht hp hm s
  show (mkResponse q t p m).sources.get s =
    (filterSource s (t ++ p ++ m)).length
  rw [hmg]
  cases s <;> rfl

/-- Each list a partial refresh uses for platform `s` contains only listings
tagged `s`, provided fetched listings are tagged with their platform. -/
theorem refreshList_tagged (rec : DbRecord) (fetch : Src → FetchOutcome)
    (hfetch : ∀ s, ∀ l ∈ settle (fetch s), l.source = s) (s : Src) :
    ∀ l ∈ refreshList rec fetch s, l.source = s := by
  intro l hl
  rw [refreshList] at hl
  by_cases h0 : (rec.sources.get s == 0) = true
  · rw [if_pos h0] at hl
    exact hfetch s l hl
  · rw [if_neg h0] at hl
    exact source_of_mem_filterSource hl

/-! ### Concrete sample data for witnesses and counterexamples -/

/-- A sample Thingiverse hit. -/
def demoListing1 : Listing :=
  { id := "thingiverse_https://www.thingiverse.com/thing:1"
    title := "Benchy"
    thumbnail := ""
    author := "maker1"
    source := Src.thingiverse
    url := "https://www.thingiverse.com/thing:1"
    likes := 3
    downloads := 0 }

/-- A second, different sample Thingiverse hit. -/
def demoListing2 : Listing :=
  { id := "thingiverse_https://www.thingiverse.com/thing:2"
    title := "Benchy XL"
    thumbnail := ""
    author := "maker2"
    source := Src.thingiverse
    url := "https://www.thingiverse.com/thing:2"
    likes := 1
    downloads := 2 }

/-- A sample Printables hit. -/
def demoListing3 : Listing :=
  { id := "printables_https://www.printables.com/model/3"
    title := "Benchy remix"
    thumbnail := ""
    author := "maker3"
    source := Src.printables
    url := "https://www.printables.com/model/3"
    likes := 0
    downloads := 5 }

/-- A sample MakerWorld hit. -/
def demoListing4 : Listing :=
  { id := "makerworld_https://makerworld.com/models/4"
    title := "Benchy v2"
    thumbnail := ""
    author := "maker4"
    source := Src.makerworld
    url := "https://makerworld.com/models/4"
    likes := 2
    downloads := 1 }

/-! ### Claim theorems -/

/-- C9: a request whose query is absent or empty is answered with a
client-visible 400 error, with an empty effect trace (no fetch, no cache
read, no cache write) and an unchanged server state. -/
theorem C9_empty_query_rejected_before_work (st : ServerState)
    (fetch : Src → FetchOutcome) :
    handleSearch st none fetch = (HandlerResult.clientError 400, [], st) ∧
    handleSearch st (some "") fetch =
      (HandlerResult.clientError 400, [], st) := by
  constructor
  · rfl
  · simp [handleSearch]

/-- C10: the whitespace-only query `" "` is not rejected as empty: it passes
validation, reaches the cache lookup and all three fetches, and is stored
verbatim under its own key, which differs from every other query text's key
in both caches. -/
theorem C10_whitespace_query_accepted (fetch : Src → FetchOutcome) :
    (∃ r, (handleSearch ⟨[], []⟩ (some " ") fetch).1 = HandlerResult.ok r) ∧
    Ev.dbRead " " ∈ (handleSearch ⟨[], []⟩ (some " ") fetch).2.1 ∧
    (∀ s, Ev.invoke s ∈ (handleSearch ⟨[], []⟩ (some " ") fetch).2.1) ∧
    (handleSearch ⟨[], []⟩ (some " ") fetch).2.2.dbCache.lookup " " ≠
      none ∧
    (handleSearch ⟨[], []⟩ (some " ") fetch).2.2.memCache.lookup
      (memKey " ") ≠ none ∧
    (∀ w, w ≠ " " →
      (handleSearch ⟨[], []⟩ (some " ") fetch).2.2.dbCache.lookup w =
        none ∧ memKey w ≠ memKey " ") := by
  have hq : (" " : String) ≠ "" := by decide
  have hdb : (⟨[], []⟩ : ServerState).dbCache.lookup " " = none := rfl
  have hmem :
      (⟨[], []⟩ : ServerState).memCache.lookup (memKey " ") = none := rfl
  rw [handleSearch_fullFetch ⟨[], []⟩ " " fetch hq hdb hmem]
  refine ⟨⟨_, rfl⟩, by simp, by intro s; cases s <;> simp, ?_, ?_, ?_⟩
  · rw [writeBack]
    simp [lookup_setEntry_self]
  · rw [writeBack]
    simp [lookup_setEntry_self]
  · intro w hw
    constructor
    · rw [writeBack]
      rw [lookup_setEntry_ne " " w _ _ hw]
      rfl
    · intro hk
      exact hw (memKey_inj hk)

/-- C10 witness: the C10 theorem applied at a concrete fetch function and a
concrete other whitespace variant. -/
theorem C10_whitespace_query_accepted_witness :
    ("  " : String) ≠ " " ∧
    ((handleSearch ⟨[], []⟩ (some " ")
        (fun _ => FetchOutcome.fulfilled [demoListing1])).2.2.dbCache.lookup
      "  " = none ∧ memKey "  " ≠ memKey " ") :=
  ⟨by decide,
   (C10_whitespace_query_accepted
      (fun _ => FetchOutcome.fulfilled [demoListing1])).2.2.2.2.2 "  "
      (by decide)⟩

/-- C3 counterexample: the claim that the memory cache is consulted first is
false. With a memory-cache entry present for query `x` and a SQLite record
whose thingiverse count is zero, the handler still invokes the thingiverse
adapter instead of returning the memory entry; and a SQLite hit with every
count positive (query `y`, empty memory cache) is returned without
populating the memory cache. -/
theorem C3_memory_first_counterexample :
    Ev.invoke Src.thingiverse ∈
      (handleSearch
        ⟨[(memKey "x", mkResponse "x" [demoListing1] [] [])],
         [("x", { results := [], sources := ⟨0, 0, 0⟩ })]⟩
        (some "x") (fun _ => FetchOutcome.fulfilled [demoListing2])).2.1 ∧
    (handleSearch
        ⟨[], [("y", { results := [demoListing1, demoListing3, demoListing4],
                      sources := ⟨1, 1, 1⟩ })]⟩
        (some "y")
        (fun _ => FetchOutcome.fulfilled [demoListing2])).2.2.memCache =
      [] := by
  constructor
  · decide
  · decide

/-- C3 amended: on every request the SQLite cache is consulted first; a
SQLite hit with every source count positive is returned immediately with no
fetch and no change to either cache (in particular the memory cache is not
populated); the memory cache is consulted only when the SQLite cache misses,
and a memory hit is then returned with no fetch and no state change. -/
theorem C3_db_cache_checked_first (st : ServerState) (query : String)
    (fetch : Src → FetchOutcome) (hq : query ≠ "") :
    (∀ rec, st.dbCache.lookup query = some rec →
      needsRefresh rec.sources = false →
      handleSearch st (some query) fetch =
        (HandlerResult.ok (dbEnvelope query rec), [Ev.dbRead query], st)) ∧
    (∀ resp, st.dbCache.lookup query = none →
      st.memCache.lookup (memKey query) = some resp →
      handleSearch st (some query) fetch =
        (HandlerResult.ok resp,
         [Ev.dbRead query, Ev.memRead (memKey query)], st)) :=
  ⟨fun rec hdb hnr => handleSearch_dbHit st query fetch rec hq hdb hnr,
   fun resp hdb hmem => handleSearch_memHit st query fetch resp hq hdb hmem⟩

/-- C3 witness: the amended theorem applied to a concrete state holding a
fully-positive SQLite record for query `y`. -/
theorem C3_db_cache_checked_first_witness :
    ("y" : String) ≠ "" ∧
    (⟨[], [("y", { results := [demoListing1, demoListing3, demoListing4],
                   sources := ⟨1, 1, 1⟩ })]⟩ : ServerState).dbCache.lookup
        "y" =
      some { results := [demoListing1, demoListing3, demoListing4],
             sources := ⟨1, 1, 1⟩ } ∧
    needsRefresh (⟨1, 1, 1⟩ : SourceCounts) = false ∧
    handleSearch
        ⟨[], [("y", { results := [demoListing1, demoListing3, demoListing4],
                      sources := ⟨1, 1, 1⟩ })]⟩
        (some "y") (fun _ => FetchOutcome.fulfilled [demoListing2]) =
      (HandlerResult.ok
        (dbEnvelope "y"
          { results := [demoListing1, demoListing3, demoListing4],
            sources := ⟨1, 1, 1⟩ }),
       [Ev.dbRead "y"],
       ⟨[], [("y", { results := [demoListing1, demoListing3, demoListing4],
                     sources := ⟨1, 1, 1⟩ })]⟩) :=
  ⟨by decide, by decide, by decide,
   (C3_db_cache_checked_first
      ⟨[], [("y", { results := [demoListing1, demoListing3, demoListing4],
                    sources := ⟨1, 1, 1⟩ })]⟩
      "y" (fun _ => FetchOutcome.fulfilled [demoListing2])
      (by decide)).1
      { results := [demoListing1, demoListing3, demoListing4],
        sources := ⟨1, 1, 1⟩ }
      (by decide) (by decide)⟩

/-- C4 counterexample: the claim that casing/whitespace variants of a query
normalize to the same cache key is false. After a request for
`phone holder` fills both caches, a request for the casing variant
`Phone Holder` misses both caches and invokes the adapters again, and the
two memory-cache keys differ. -/
theorem C4_no_normalization_counterexample :
    (handleSearch ⟨[], []⟩ (some "phone holder")
        (fun _ => FetchOutcome.fulfilled [demoListing1])).2.2.dbCache.lookup
      "Phone Holder" = none ∧
    (handleSearch ⟨[], []⟩ (some "phone holder")
        (fun _ =>
          FetchOutcome.fulfilled [demoListing1])).2.2.memCache.lookup
      (memKey "Phone Holder") = none ∧
    Ev.invoke Src.thingiverse ∈
      (handleSearch
        (handleSearch ⟨[], []⟩ (some "phone holder")
          (fun _ => FetchOutcome.fulfilled [demoListing1])).2.2
        (some "Phone Holder")
        (fun _ => FetchOutcome.fulfilled [demoListing1])).2.1 ∧
    memKey "phone holder" ≠ memKey "Phone Holder" := by
  refine ⟨by decide, by decide, by decide, by decide⟩

/-- C4 amended: the code performs no normalization. The cache key is the raw
query text (prefixed with `search_` for the memory cache), so two query
texts share a cache entry exactly when they are byte-for-byte identical;
any casing or whitespace variant is a distinct key, and a fetch for one
query writes only under that exact key, leaving every other key's entries
unchanged. -/
theorem C4_cache_key_is_verbatim_query (q1 q2 : String) (st : ServerState)
    (fetch : Src → FetchOutcome) (hq : q1 ≠ "")
    (hdb : st.dbCache.lookup q1 = none)
    (hmem : st.memCache.lookup (memKey q1) = none) :
    (memKey q1 = memKey q2 ↔ q1 = q2) ∧
    (∃ rec, (handleSearch st (some q1) fetch).2.2.dbCache.lookup q1 =
      some rec) ∧
    (∀ q', q' ≠ q1 →
      (handleSearch st (some q1) fetch).2.2.dbCache.lookup q' =
        st.dbCache.lookup q' ∧
      (handleSearch st (some q1) fetch).2.2.memCache.lookup (memKey q') =
        st.memCache.lookup (memKey q')) := by
  rw [handleSearch_fullFetch st q1 fetch hq hdb hmem]
  refine ⟨⟨memKey_inj, fun h => by rw [h]⟩, ?_, ?_⟩
  · exact ⟨_, lookup_setEntry_self q1 _ _⟩
  · intro q' hne
    exact ⟨lookup_setEntry_ne q1 q' _ _ hne,
      lookup_setEntry_ne (memKey q1) (memKey q') _ _
        (fun hk => hne (memKey_inj hk))⟩

/-- C4 witness: the amended theorem applied at the concrete query
`phone holder`, its casing variant `Phone Holder`, and the empty server
state. -/
theorem C4_cache_key_is_verbatim_query_witness :
    ("phone holder" : String) ≠ "" ∧
    (memKey "phone holder" = memKey "Phone Holder" ↔
      ("phone holder" : String) = "Phone Holder") :=
  ⟨by decide,
   (C4_cache_key_is_verbatim_query "phone holder" "Phone Holder" ⟨[], []⟩
      (fun _ => FetchOutcome.fulfilled [demoListing1]) (by decide) rfl
      rfl).1⟩

/-- C5: for every request in which platform `b`'s adapter promise rejects
(its scraper throwing or timing out) while every other platform's fulfills,
the response still carries the other platforms' listings in full, reports 0
for the failed platform, and is a normal response, never a request-level
error. An adapter call for `b` occurs only on the full-fetch path (both
caches miss) or on the partial-refresh path with `b` among the zero-count
platforms, and the theorem covers both: on a full fetch every other
platform's fresh listings appear in full; on a partial refresh every other
re-fetched platform's fresh listings, and every carried platform's cached
listings, appear in full. The scraper boundary itself also converts any
internal error to an empty list. -/
theorem C5_fault_isolation (st : ServerState) (query : String)
    (fetch : Src → FetchOutcome) (b : Src) (ls : Src → List Listing)
    (hq : query ≠ "")
    (hfail : fetch b = FetchOutcome.rejected)
    (hok : ∀ s, s ≠ b → fetch s = FetchOutcome.fulfilled (ls s)) :
    (∀ msg, adapterCatch (Except.error msg) = []) ∧
    (st.dbCache.lookup query = none →
      st.memCache.lookup (memKey query) = none →
      ∃ r, (handleSearch st (some query) fetch).1 = HandlerResult.ok r ∧
        r.results =
          (if b = Src.thingiverse then [] else ls Src.thingiverse) ++
          (if b = Src.printables then [] else ls Src.printables) ++
          (if b = Src.makerworld then [] else ls Src.makerworld) ∧
        r.sources.get b = 0 ∧
        (∀ s, s ≠ b → r.sources.get s = (ls s).length)) ∧
    (∀ rec, st.dbCache.lookup query = some rec →
      needsRefresh rec.sources = true →
      rec.sources.get b = 0 →
      ∃ r, (handleSearch st (some query) fetch).1 = HandlerResult.ok r ∧
        r.results =
          (if b = Src.thingiverse then []
           else if rec.sources.get Src.thingiverse == 0
             then ls Src.thingiverse
             else filterSource Src.thingiverse rec.results) ++
          (if b = Src.printables then []
           else if rec.sources.get Src.printables == 0
             then ls Src.printables
             else filterSource Src.printables rec.results) ++
          (if b = Src.makerworld then []
           else if rec.sources.get Src.makerworld == 0
             then ls Src.makerworld
             else filterSource Src.makerworld rec.results) ∧
        r.sources.get b = 0 ∧
        (∀ s, s ≠ b → rec.sources.get s = 0 →
          r.sources.get s = (ls s).length) ∧
        (∀ s, s ≠ b → rec.sources.get s ≠ 0 →
          r.sources.get s = (filterSource s rec.results).length)) := by
  refine ⟨fun msg => rfl, ?_, ?_⟩
  · intro hdb hmem
    rw [handleSearch_fullFetch st query fetch hq hdb hmem]
    refine ⟨_, rfl, ?_, ?_, ?_⟩
    · cases b with
      | thingiverse =>
        rw [hfail, hok Src.printables (by decide),
          hok Src.makerworld (by decide)]
        simp [settle, mkResponse]
      | printables =>
        rw [hfail, hok Src.thingiverse (by decide),
          hok Src.makerworld (by decide)]
        simp [settle, mkResponse]
      | makerworld =>
        rw [hfail, hok Src.thingiverse (by decide),
          hok Src.printables (by decide)]
        simp [settle, mkResponse]
    · cases b <;>
        simp [mkResponse, SourceCounts.get, hfail, settle]
    · intro s hs
      cases s <;> rw [hok _ hs] <;>
        simp [mkResponse, SourceCounts.get, settle]
  · intro rec hdb hnr h0
    rw [handleSearch_refresh st query fetch rec hq hdb hnr]
    have hcomp : ∀ X, refreshList rec fetch X =
        (if b = X then []
         else if rec.sources.get X == 0 then ls X
         else filterSource X rec.results) := by
      intro X
      by_cases hbX : b = X
      · subst hbX
        rw [if_pos rfl, refreshList, if_pos (by simp [h0]), hfail]
        rfl
      · rw [if_neg hbX, refreshList]
        by_cases h0X : (rec.sources.get X == 0) = true
        · rw [if_pos h0X, if_pos h0X, hok X (fun h => hbX h.symm)]
          rfl
        · rw [if_neg h0X, if_neg h0X]
    refine ⟨_, rfl, ?_, ?_, ?_, ?_⟩
    · show refreshList rec fetch Src.thingiverse ++
        refreshList rec fetch Src.printables ++
        refreshList rec fetch Src.makerworld = _
      rw [hcomp Src.thingiverse, hcomp Src.printables,
        hcomp Src.makerworld]
    · cases b <;>
        · show (refreshList rec fetch _).length = 0
          rw [refreshList, if_pos (by simp [h0]), hfail]
          rfl
    · intro s hs hs0
      cases s <;>
        · show (refreshList rec fetch _).length = _
          rw [refreshList, if_pos (by simp [hs0]),
            hok _ (fun h => hs h)]
          rfl
    · intro s hs hs0
      cases s <;>
        · show (refreshList rec fetch _).length = _
          rw [refreshList, if_neg (by simpa using hs0)]

/-- C5 witness: the C5 theorem at a concrete partial-refresh request whose
re-fetched printables adapter rejects: the cached record for `x` has a
positive thingiverse count and zero printables/makerworld counts, the
printables promise rejects, and the other two fulfill. -/
theorem C5_fault_isolation_witness :
    ("x" : String) ≠ "" ∧
    needsRefresh (⟨1, 0, 0⟩ : SourceCounts) = true ∧
    SourceCounts.get ⟨1, 0, 0⟩ Src.printables = 0 ∧
    (∃ r,
      (handleSearch
        ⟨[], [("x", { results := [demoListing1],
                      sources := ⟨1, 0, 0⟩ })]⟩ (some "x")
        (fun s => match s with
          | Src.thingiverse => FetchOutcome.fulfilled [demoListing2]
          | Src.printables => FetchOutcome.rejected
          | Src.makerworld =>
            FetchOutcome.fulfilled [demoListing4])).1 =
        HandlerResult.ok r ∧
      r.results =
        (if Src.printables = Src.thingiverse then []
         else if SourceCounts.get ⟨1, 0, 0⟩ Src.thingiverse == 0
           then [demoListing2]
           else filterSource Src.thingiverse [demoListing1]) ++
        (if Src.printables = Src.printables then []
         else if SourceCounts.get ⟨1, 0, 0⟩ Src.printables == 0
           then [demoListing2]
           else filterSource Src.printables [demoListing1]) ++
        (if Src.printables = Src.makerworld then []
         else if SourceCounts.get ⟨1, 0, 0⟩ Src.makerworld == 0
           then [demoListing4]
           else filterSource Src.makerworld [demoListing1]) ∧
      r.sources.get Src.printables = 0 ∧
      (∀ s, s ≠ Src.printables → SourceCounts.get ⟨1, 0, 0⟩ s = 0 →
        r.sources.get s =
          ((fun s => match s with
            | Src.thingiverse => [demoListing2]
            | Src.printables => ([] : List Listing)
            | Src.makerworld => [demoListing4]) s).length) ∧
      (∀ s, s ≠ Src.printables → SourceCounts.get ⟨1, 0, 0⟩ s ≠ 0 →
        r.sources.get s = (filterSource s [demoListing1]).length)) :=
  ⟨by decide, by decide, by decide,
   (C5_fault_isolation
      ⟨[], [("x", { results := [demoListing1], sources := ⟨1, 0, 0⟩ })]⟩
      "x"
      (fun s => match s with
        | Src.thingiverse => FetchOutcome.fulfilled [demoListing2]
        | Src.printables => FetchOutcome.rejected
        | Src.makerworld => FetchOutcome.fulfilled [demoListing4])
      Src.printables
      (fun s => match s with
        | Src.thingiverse => [demoListing2]
        | Src.printables => ([] : List Listing)
        | Src.makerworld => [demoListing4])
      (by decide) rfl
      (fun s hs => by cases s <;> first | rfl | exact absurd rfl hs)).2.2
      { results := [demoListing1], sources := ⟨1, 0, 0⟩ }
      rfl (by decide) (by decide)⟩

/-- C6: when every platform's fetch comes back empty (all sources fail), the
request still succeeds with a total of 0 and all counts 0, that record is
written to the SQLite cache, and a subsequent request for the same query
takes the refresh path, invoking all three adapters again. -/
theorem C6_all_sources_fail (st : ServerState) (query : String)
    (fetch fetch' : Src → FetchOutcome)
    (hq : query ≠ "")
    (hdb : st.dbCache.lookup query = none)
    (hmem : st.memCache.lookup (memKey query) = none)
    (hfail : ∀ s, settle (fetch s) = []) :
    (handleSearch st (some query) fetch).1 =
      HandlerResult.ok (mkResponse query [] [] []) ∧
    (mkResponse query [] [] []).total = 0 ∧
    (∀ s, (mkResponse query [] [] []).sources.get s = 0) ∧
    (handleSearch st (some query) fetch).2.2.dbCache.lookup query =
      some { results := [], sources := ⟨0, 0, 0⟩ } ∧
    (∃ r2, (handleSearch (handleSearch st (some query) fetch).2.2
      (some query) fetch').1 = HandlerResult.ok r2) ∧
    (∀ s, Ev.invoke s ∈
      (handleSearch (handleSearch st (some query) fetch).2.2 (some query)
        fetch').2.1) := by
  rw [handleSearch_fullFetch st query fetch hq hdb hmem,
    hfail Src.thingiverse, hfail Src.printables, hfail Src.makerworld]
  have hdb2 :
      (writeBack st query (mkResponse query [] [] [])).dbCache.lookup
        query = some { results := [], sources := ⟨0, 0, 0⟩ } := by
    rw [writeBack]
    exact lookup_setEntry_self query _ _
  have hrun2 := handleSearch_refresh
    (writeBack st query (mkResponse query [] [] [])) query fetch'
    { results := [], sources := ⟨0, 0, 0⟩ } hq hdb2 (by decide)
  refine ⟨rfl, rfl, fun s => by cases s <;> rfl, hdb2, ?_, ?_⟩
  · rw [hrun2]
    exact ⟨_, rfl⟩
  · intro s
    rw [hrun2]
    cases s <;> simp

/-- C6 witness: the C6 theorem at a concrete request where all three
adapter promises reject. -/
theorem C6_all_sources_fail_witness :
    ("benchy" : String) ≠ "" ∧
    (handleSearch ⟨[], []⟩ (some "benchy")
        (fun _ => FetchOutcome.rejected)).1 =
      HandlerResult.ok (mkResponse "benchy" [] [] []) ∧
    (handleSearch ⟨[], []⟩ (some "benchy")
        (fun _ => FetchOutcome.rejected)).2.2.dbCache.lookup "benchy" =
      some { results := [], sources := ⟨0, 0, 0⟩ } ∧
    (∀ s, Ev.invoke s ∈
      (handleSearch
        (handleSearch ⟨[], []⟩ (some "benchy")
          (fun _ => FetchOutcome.rejected)).2.2
        (some "benchy") (fun _ => FetchOutcome.rejected)).2.1) := by
  have h := C6_all_sources_fail ⟨[], []⟩ "benchy"
    (fun _ => FetchOutcome.rejected) (fun _ => FetchOutcome.rejected)
    (by decide) rfl rfl (fun s => rfl)
  exact ⟨by decide, h.1, h.2.2.2.1, h.2.2.2.2.2⟩

/-- C8: after a full fetch in which every platform returns a non-empty list,
the resulting SQLite record has all counts positive, and a second identical
request invokes no adapter: its only effect is the SQLite read, it leaves
the state unchanged, and it returns the very same envelope, whose `total`
and `sources` are exactly the stored record's. -/
theorem C8_fresh_hit_invokes_no_adapter (st : ServerState) (query : String)
    (fetch fetch' : Src → FetchOutcome) (lt lp lm : List Listing)
    (hq : query ≠ "")
    (hdb : st.dbCache.lookup query = none)
    (hmem : st.memCache.lookup (memKey query) = none)
    (hT : fetch Src.thingiverse = FetchOutcome.fulfilled lt)
    (hP : fetch Src.printables = FetchOutcome.fulfilled lp)
    (hM : fetch Src.makerworld = FetchOutcome.fulfilled lm)
    (hnt : lt ≠ []) (hnp : lp ≠ []) (hnm : lm ≠ []) :
    (handleSearch st (some query) fetch).1 =
      HandlerResult.ok (mkResponse query lt lp lm) ∧
    (handleSearch st (some query) fetch).2.2.dbCache.lookup query =
      some { results := (mkResponse query lt lp lm).results,
             sources := (mkResponse query lt lp lm).sources } ∧
    handleSearch (handleSearch st (some query) fetch).2.2 (some query)
        fetch' =
      (HandlerResult.ok (mkResponse query lt lp lm), [Ev.dbRead query],
       (handleSearch st (some query) fetch).2.2) := by
  have h1 := handleSearch_fullFetch st query fetch hq hdb hmem
  rw [hT, hP, hM] at h1
  simp only [settle] at h1
  rw [h1]
  have hdb2 : (writeBack st query
      (mkResponse query lt lp lm)).dbCache.lookup query =
      some { results := (mkResponse query lt lp lm).results,
             sources := (mkResponse query lt lp lm).sources } := by
    rw [writeBack]
    exact lookup_setEntry_self query _ _
  have hnr : needsRefresh (mkResponse query lt lp lm).sources = false := by
    have h1' : lt.length ≠ 0 := fun h => hnt (List.length_eq_zero.mp h)
    have h2' : lp.length ≠ 0 := fun h => hnp (List.length_eq_zero.mp h)
    have h3' : lm.length ≠ 0 := fun h => hnm (List.length_eq_zero.mp h)
    simp [needsRefresh, mkResponse, h1', h2', h3']
  refine ⟨rfl, hdb2, ?_⟩
  rw [handleSearch_dbHit (writeBack st query (mkResponse query lt lp lm))
    query fetch' _ hq hdb2 hnr]
  rfl

/-- C8 witness: the C8 theorem at a concrete first fetch returning one
listing per platform. -/
theorem C8_fresh_hit_invokes_no_adapter_witness :
    ("benchy" : String) ≠ "" ∧
    handleSearch
        (handleSearch ⟨[], []⟩ (some "benchy")
          (fun s => match s with
            | Src.thingiverse => FetchOutcome.fulfilled [demoListing1]
            | Src.printables => FetchOutcome.fulfilled [demoListing3]
            | Src.makerworld =>
              FetchOutcome.fulfilled [demoListing4])).2.2
        (some "benchy") (fun _ => FetchOutcome.rejected) =
      (HandlerResult.ok
        (mkResponse "benchy" [demoListing1] [demoListing3] [demoListing4]),
       [Ev.dbRead "benchy"],
       (handleSearch ⟨[], []⟩ (some "benchy")
          (fun s => match s with
            | Src.thingiverse => FetchOutcome.fulfilled [demoListing1]
            | Src.printables => FetchOutcome.fulfilled [demoListing3]
            | Src.makerworld =>
              FetchOutcome.fulfilled [demoListing4])).2.2) :=
  ⟨by decide,
   (C8_fresh_hit_invokes_no_adapter ⟨[], []⟩ "benchy"
      (fun s => match s with
        | Src.thingiverse => FetchOutcome.fulfilled [demoListing1]
        | Src.printables => FetchOutcome.fulfilled [demoListing3]
        | Src.makerworld => FetchOutcome.fulfilled [demoListing4])
      (fun _ => FetchOutcome.rejected)
      [demoListing1] [demoListing3] [demoListing4]
      (by decide) rfl rfl rfl rfl rfl
      (by decide) (by decide) (by decide)).2.2⟩

/-- C7: every envelope the handler returns satisfies the counting invariant
(`total` is the number of listings, each `sources` entry counts that
platform's listings), provided fetched listings are tagged with their
platform and any pre-existing cache entries for the query satisfy the same
invariant. -/
theorem C7_envelope_invariant (st : ServerState) (query : String)
    (fetch : Src → FetchOutcome)
    (hfetch : ∀ s, ∀ l ∈ settle (fetch s), l.source = s)
    (hdbOK : ∀ rec, st.dbCache.lookup query = some rec → recOK rec)
    (hmemOK : ∀ resp, st.memCache.lookup (memKey query) = some resp →
      envelopeOK resp) :
    ∀ r, (handleSearch st (some query) fetch).1 = HandlerResult.ok r →
      envelopeOK r := by
  intro r hr
  by_cases hq : query = ""
  · rw [hq] at hr
    simp [handleSearch] at hr
  · cases hdb : st.dbCache.lookup query with
    | some rec =>
      by_cases hnr : needsRefresh rec.sources = true
      · rw [handleSearch_refresh st query fetch rec hq hdb hnr] at hr
        injection hr with h
        subst h
        exact envelopeOK_mkResponse query _ _ _
          (refreshList_tagged rec fetch hfetch Src.thingiverse)
          (refreshList_tagged rec fetch hfetch Src.printables)
          (refreshList_tagged rec fetch hfetch Src.makerworld)
      · have hnr' : needsRefresh rec.sources = false :=
          Bool.not_eq_true _ ▸ (by simpa using hnr)
        rw [handleSearch_dbHit st query fetch rec hq hdb hnr'] at hr
        injection hr with h
        subst h
        exact ⟨rfl, fun s => hdbOK rec hdb s⟩
    | none =>
      cases hmem : st.memCache.lookup (memKey query) with
      | some resp =>
        rw [handleSearch_memHit st query fetch resp hq hdb hmem] at hr
        injection hr with h
        subst h
        exact hmemOK resp hmem
      | none =>
        rw [handleSearch_fullFetch st query fetch hq hdb hmem] at hr
        injection hr with h
        subst h
        exact envelopeOK_mkResponse query _ _ _
          (hfetch Src.thingiverse) (hfetch Src.printables)
          (hfetch Src.makerworld)

/-- C7 witness: the C7 theorem at a concrete full fetch with one tagged
listing per platform. -/
theorem C7_envelope_invariant_witness :
    envelopeOK
      (mkResponse "benchy" [demoListing1] [demoListing3] [demoListing4]) :=
  C7_envelope_invariant ⟨[], []⟩ "benchy"
    (fun s => match s with
      | Src.thingiverse => FetchOutcome.fulfilled [demoListing1]
      | Src.printables => FetchOutcome.fulfilled [demoListing3]
      | Src.makerworld => FetchOutcome.fulfilled [demoListing4])
    (by
      intro s l hl
      cases s <;> simp [settle] at hl <;> subst hl <;> rfl)
    (fun rec h => nomatch h) (fun resp h => nomatch h)
    (mkResponse "benchy" [demoListing1] [demoListing3] [demoListing4])
    (by decide)

/-- C1: on a SQLite hit with at least one zero count, exactly the zero-count
platforms are re-fetched (an adapter invocation appears in the trace iff the
platform's cached count is zero); every positive-count platform's listings
in the merged result are identical to its cached listings and its count in
the newly written record is unchanged, while each re-fetched platform's
count is the length of its fresh settled fetch. Cached counts of
positive-count platforms are assumed consistent with the cached listings, as
every record the code writes is. -/
theorem C1_refresh_exactly_zero_count_sources (st : ServerState)
    (query : String) (fetch : Src → FetchOutcome) (rec : DbRecord)
    (hq : query ≠ "")
    (hdb : st.dbCache.lookup query = some rec)
    (hnr : needsRefresh rec.sources = true)
    (hfetch : ∀ s, ∀ l ∈ settle (fetch s), l.source = s)
    (hinv : ∀ s, rec.sources.get s ≠ 0 →
      (filterSource s rec.results).length = rec.sources.get s) :
    ∃ r, (handleSearch st (some query) fetch).1 = HandlerResult.ok r ∧
      (∀ s, (Ev.invoke s ∈ (handleSearch st (some query) fetch).2.1 ↔
        rec.sources.get s = 0)) ∧
      (∀ s, rec.sources.get s ≠ 0 →
        filterSource s r.results = filterSource s rec.results ∧
        r.sources.get s = rec.sources.get s) ∧
      (∀ s, rec.sources.get s = 0 →
        r.sources.get s = (settle (fetch s)).length) ∧
      (handleSearch st (some query) fetch).2.2.dbCache.lookup query =
        some { results := r.results, sources := r.sources } := by
  rw [handleSearch_refresh st query fetch rec hq hdb hnr]
  have hmg := filterSource_merge
    (refreshList rec fetch Src.thingiverse)
    (refreshList rec fetch Src.printables)
    (refreshList rec fetch Src.makerworld)
    (refreshList_tagged rec fetch hfetch Src.thingiverse)
    (refreshList_tagged rec fetch hfetch Src.printables)
    (refreshList_tagged rec fetch hfetch Src.makerworld)
  refine ⟨_, rfl, ?_, ?_, ?_, ?_⟩
  · intro s
    cases s <;>
      by_cases h1 : rec.sources.thingiverse = 0 <;>
      by_cases h2 : rec.sources.printables = 0 <;>
      by_cases h3 : rec.sources.makerworld = 0 <;>
      simp [SourceCounts.get, h1, h2, h3]
  · intro s hs
    constructor
    · cases s with
      | thingiverse =>
        exact (hmg Src.thingiverse).trans (by
          show refreshList rec fetch Src.thingiverse =
            filterSource Src.thingiverse rec.results
          rw [refreshList,
            if_neg (by simpa [SourceCounts.get] using hs)])
      | printables =>
        exact (hmg Src.printables).trans (by
          show refreshList rec fetch Src.printables =
            filterSource Src.printables rec.results
          rw [refreshList,
            if_neg (by simpa [SourceCounts.get] using hs)])
      | makerworld =>
        exact (hmg Src.makerworld).trans (by
          show refreshList rec fetch Src.makerworld =
            filterSource Src.makerworld rec.results
          rw [refreshList,
            if_neg (by simpa [SourceCounts.get] using hs)])
    · cases s <;>
        · show (refreshList rec fetch _).length = _
          rw [refreshList, if_neg (by simpa [SourceCounts.get] using hs)]
          exact hinv _ hs
  · intro s hs
    cases s <;>
      · show (refreshList rec fetch _).length = _
        rw [refreshList, if_pos (by simpa [SourceCounts.get] using hs)]
  · rw [writeBack]
    exact lookup_setEntry_self query _ _

/-- C1 witness: the C1 theorem at a concrete cached record with a positive
thingiverse count and zero printables/makerworld counts. -/
theorem C1_refresh_exactly_zero_count_sources_witness :
    ("x" : String) ≠ "" ∧
    needsRefresh (⟨1, 0, 0⟩ : SourceCounts) = true ∧
    (∃ r,
      (handleSearch
        ⟨[], [("x", { results := [demoListing1],
                      sources := ⟨1, 0, 0⟩ })]⟩ (some "x")
        (fun s => match s with
          | Src.thingiverse => FetchOutcome.fulfilled [demoListing2]
          | Src.printables => FetchOutcome.fulfilled [demoListing3]
          | Src.makerworld =>
            FetchOutcome.fulfilled [demoListing4])).1 =
        HandlerResult.ok r ∧
      (∀ s, (Ev.invoke s ∈
        (handleSearch
          ⟨[], [("x", { results := [demoListing1],
                        sources := ⟨1, 0, 0⟩ })]⟩ (some "x")
          (fun s => match s with
            | Src.thingiverse => FetchOutcome.fulfilled [demoListing2]
            | Src.printables => FetchOutcome.fulfilled [demoListing3]
            | Src.makerworld =>
              FetchOutcome.fulfilled [demoListing4])).2.1 ↔
        SourceCounts.get ⟨1, 0, 0⟩ s = 0)) ∧
      (∀ s, SourceCounts.get ⟨1, 0, 0⟩ s ≠ 0 →
        filterSource s r.results = filterSource s [demoListing1] ∧
        r.sources.get s = SourceCounts.get ⟨1, 0, 0⟩ s)) := by
  have h := C1_refresh_exactly_zero_count_sources
    ⟨[], [("x", { results := [demoListing1], sources := ⟨1, 0, 0⟩ })]⟩
    "x"
    (fun s => match s with
      | Src.thingiverse => FetchOutcome.fulfilled [demoListing2]
      | Src.printables => FetchOutcome.fulfilled [demoListing3]
      | Src.makerworld => FetchOutcome.fulfilled [demoListing4])
    { results := [demoListing1], sources := ⟨1, 0, 0⟩ }
    (by decide) rfl (by decide)
    (by
      intro s l hl
      cases s <;> simp [settle] at hl <;> subst hl <;> rfl)
    (by intro s hs; cases s <;> rfl)
  obtain ⟨r, h1, h2, h3, _⟩ := h
  exact ⟨by decide, by decide, r, h1, h2, h3⟩

/-- C2: the code has no single-flight coalescing. Two concurrent requests
for the same uncached query `benchy`, the second arriving while the first
awaits its fetches, each perform a full set of three adapter invocations
(six in total rather than one set of three), and the two callers receive
different merged results when the fetches settle differently. This is a
direct evaluation of the code at the claim's failing scenario. -/
theorem C2_no_single_flight :
    (invoked ((twoConcurrent ⟨[], []⟩ "benchy"
        (fun _ => FetchOutcome.fulfilled [demoListing1])
        (fun _ => FetchOutcome.fulfilled [demoListing2])).1.1.2)).length
      = 3 ∧
    (invoked ((twoConcurrent ⟨[], []⟩ "benchy"
        (fun _ => FetchOutcome.fulfilled [demoListing1])
        (fun _ => FetchOutcome.fulfilled [demoListing2])).1.2.2)).length
      = 3 ∧
    (twoConcurrent ⟨[], []⟩ "benchy"
        (fun _ => FetchOutcome.fulfilled [demoListing1])
        (fun _ => FetchOutcome.fulfilled [demoListing2])).1.1.1 ≠
      (twoConcurrent ⟨[], []⟩ "benchy"
        (fun _ => FetchOutcome.fulfilled [demoListing1])
        (fun _ => FetchOutcome.fulfilled [demoListing2])).1.2.1 := by
  exact ⟨by decide, by decide, by decide⟩

end Agg
